import Mathlib

/-!
Shallow embedding of the serde deserializer in `src/de/mod.rs` of
collectd-rust-plugin: a type-directed decoder from a collectd
configuration tree (`ConfigItem` / `ConfigValue`, from the crate's `api`
module) into Rust values.

Modelling conventions:
* Rust `f64` scalars are modelled as `ℚ`.  Every numeric literal appearing
  in the claims (1.0, 2003.0, 300.0) is exactly representable in `f64`, so
  the rational model is exact on all inputs the proofs touch.  Rust's
  float-to-int `as` cast (defined, since Rust 1.45, as truncation toward
  zero with saturation at the target bounds, NaN ↦ 0) is modelled by
  `rustTruncSat`; `ℚ` has no NaN or infinities, which no claim exercises.
* Rust `Vec<DeType>` used as a stack (push at the end, top at
  `depth[len-1]`) is modelled as a Lean `List` with the top at the head.
* Fallible Rust functions returning `Result<T, Error>` are modelled with
  the `Res` type below; the extra `Res.panic` constructor marks the places
  where the Rust code can panic (an out-of-bounds index or an `unwrap`),
  which `Result` cannot represent.
* serde's visitor indirection: each `deserialize_*` method hands a value to
  the caller-supplied visitor.  The derived visitors for primitive targets
  are identity-like, so each method is modelled as returning the value it
  passes to the visitor, paired with the post-state of the deserializer
  (the Rust methods take `&mut self`; the pairing makes any state change
  explicit).  `deserialize_seq` / `deserialize_struct` hand the visitor an
  iterator over a slice; they are modelled as returning that slice, and the
  iterators (`FieldSeparated`, `SeqSeparated`) are modelled separately.
-/

/-- `ConfigValue` from the crate's `api` module (used throughout
`src/de/mod.rs` and its tests): one scalar of a config node.
The `f64` payload of `Number` is modelled as `ℚ` (see the header). -/
inductive ConfigValue where
  | string (s : String)
  | number (n : ℚ)
  | boolean (b : Bool)
deriving Repr

/-- `ConfigItem` from the crate's `api` module: one configuration node,
a key with attached scalar values and child nodes. -/
inductive ConfigItem where
  | mk (key : String) (values : List ConfigValue) (children : List ConfigItem)
deriving Repr

def ConfigItem.key : ConfigItem → String
  | .mk k _ _ => k

def ConfigItem.values : ConfigItem → List ConfigValue
  | .mk _ v _ => v

def ConfigItem.children : ConfigItem → List ConfigItem
  | .mk _ _ c => c

/-- `DeError` from `src/de/mod.rs` (the `SerdeError` case carries the
message produced through `de::Error::custom`). -/
inductive DeError where
  | noMoreValuesLeft
  | serdeError (msg : String)
  | expectSingleValue
  | expectString
  | expectChar (s : String)
  | expectBoolean
  | expectNumber
  | expectStruct
  | dataTypeNotSupported
deriving Repr, DecidableEq

/-- Outcome of a deserializer operation: `ok`, an `Error(DeError)` as in the
Rust `Result`, or `panic` where the Rust code would panic (out-of-bounds
index / `unwrap` on `None`). -/
inductive Res (α : Type) where
  | ok (a : α)
  | err (e : DeError)
  | panic
deriving Repr

def Res.map {α β : Type} (f : α → β) : Res α → Res β
  | .ok a => .ok (f a)
  | .err e => .err e
  | .panic => .panic

def Res.bind {α β : Type} : Res α → (α → Res β) → Res β
  | .ok a, f => f a
  | .err e, _ => .err e
  | .panic, _ => .panic

/-- `DeType` from `src/de/mod.rs`: one context frame.  The Rust variants
hold references into the input tree; the Lean model stores the values. -/
inductive DeType where
  | struct (item : ConfigItem)
  | seq (v : ConfigValue)
deriving Repr

/-- `Deserializer` from `src/de/mod.rs`.  `depth` is the Rust `Vec` stack
with the top of the stack at the head of the list. -/
structure Deserializer where
  input : List ConfigItem
  depth : List DeType
  root : Bool
deriving Repr

namespace Deserializer

/-- `Deserializer::from_collectd`. -/
def from_collectd (input : List ConfigItem) : Deserializer :=
  { input := input, depth := [], root := true }

/-- `Deserializer::current`: top of the stack, or `NoMoreValuesLeft` when
the stack is empty. -/
def current (d : Deserializer) : Res DeType :=
  match d.depth with
  | [] => .err .noMoreValuesLeft
  | t :: _ => .ok t

/-- `Deserializer::grab_val`: single-value resolution.  On a `Struct` frame
the node must carry exactly one value (`values.len() != 1` is
`ExpectSingleValue`, then `values[0]` is taken); a `Seq` frame yields its
scalar directly. -/
def grab_val (d : Deserializer) : Res ConfigValue :=
  (d.current).bind fun t =>
    match t with
    | .struct item =>
        match item.values with
        | [v] => .ok v
        | _ => .err .expectSingleValue
    | .seq v => .ok v

/-- `Deserializer::grab_string`. -/
def grab_string (d : Deserializer) : Res String :=
  (d.grab_val).bind fun v =>
    match v with
    | .string x => .ok x
    | _ => .err .expectString

/-- `Deserializer::grab_bool`. -/
def grab_bool (d : Deserializer) : Res Bool :=
  (d.grab_val).bind fun v =>
    match v with
    | .boolean x => .ok x
    | _ => .err .expectBoolean

/-- `Deserializer::grab_number`. -/
def grab_number (d : Deserializer) : Res ℚ :=
  (d.grab_val).bind fun v =>
    match v with
    | .number x => .ok x
    | _ => .err .expectNumber

end Deserializer

/-- Truncation toward zero, the rounding step of Rust's float-to-int `as`
cast. -/
def rustTrunc (q : ℚ) : ℤ :=
  if 0 ≤ q then ⌊q⌋ else ⌈q⌉

/-- Rust's float-to-int `as` cast (Rust ≥ 1.45, the defined semantics of
the `x as i8` etc. in `src/de/mod.rs`): truncate toward zero and saturate
at the bounds of the target type. -/
def rustTruncSat (lo hi : ℤ) (q : ℚ) : ℤ :=
  max lo (min hi (rustTrunc q))

def f64_as_i8 : ℚ → ℤ := rustTruncSat (-(2 ^ 7)) (2 ^ 7 - 1)
def f64_as_i16 : ℚ → ℤ := rustTruncSat (-(2 ^ 15)) (2 ^ 15 - 1)
def f64_as_i32 : ℚ → ℤ := rustTruncSat (-(2 ^ 31)) (2 ^ 31 - 1)
def f64_as_i64 : ℚ → ℤ := rustTruncSat (-(2 ^ 63)) (2 ^ 63 - 1)
def f64_as_u8 : ℚ → ℤ := rustTruncSat 0 (2 ^ 8 - 1)
def f64_as_u16 : ℚ → ℤ := rustTruncSat 0 (2 ^ 16 - 1)
def f64_as_u32 : ℚ → ℤ := rustTruncSat 0 (2 ^ 32 - 1)
def f64_as_u64 : ℚ → ℤ := rustTruncSat 0 (2 ^ 64 - 1)

/-- Rust `str::len`: the UTF-8 byte length of a string. -/
def utf8Len (s : String) : Nat :=
  (s.data.map Char.utf8Size).sum

namespace Deserializer

/-- `deserialize_bool`: `grab_bool` then `visitor.visit_bool`; the value
handed to the visitor is returned with the (unchanged) state. -/
def deserialize_bool (d : Deserializer) : Res (Bool × Deserializer) :=
  (d.grab_bool).map fun x => (x, d)

/-- `deserialize_string` (`visit_string` copies the borrowed str). -/
def deserialize_string (d : Deserializer) : Res (String × Deserializer) :=
  (d.grab_string).map fun x => (x, d)

/-- `deserialize_str` (`visit_borrowed_str`). -/
def deserialize_str (d : Deserializer) : Res (String × Deserializer) :=
  (d.grab_string).map fun x => (x, d)

/-- `deserialize_i8`: `grab_number` then `visit_i8(x as i8)`. -/
def deserialize_i8 (d : Deserializer) : Res (ℤ × Deserializer) :=
  (d.grab_number).map fun x => (f64_as_i8 x, d)

/-- `deserialize_i16`. -/
def deserialize_i16 (d : Deserializer) : Res (ℤ × Deserializer) :=
  (d.grab_number).map fun x => (f64_as_i16 x, d)

/-- `deserialize_i32`. -/
def deserialize_i32 (d : Deserializer) : Res (ℤ × Deserializer) :=
  (d.grab_number).map fun x => (f64_as_i32 x, d)

/-- `deserialize_i64`. -/
def deserialize_i64 (d : Deserializer) : Res (ℤ × Deserializer) :=
  (d.grab_number).map fun x => (f64_as_i64 x, d)

/-- `deserialize_u8`. -/
def deserialize_u8 (d : Deserializer) : Res (ℤ × Deserializer) :=
  (d.grab_number).map fun x => (f64_as_u8 x, d)

/-- `deserialize_u16`. -/
def deserialize_u16 (d : Deserializer) : Res (ℤ × Deserializer) :=
  (d.grab_number).map fun x => (f64_as_u16 x, d)

/-- `deserialize_u32`. -/
def deserialize_u32 (d : Deserializer) : Res (ℤ × Deserializer) :=
  (d.grab_number).map fun x => (f64_as_u32 x, d)

/-- `deserialize_u64`. -/
def deserialize_u64 (d : Deserializer) : Res (ℤ × Deserializer) :=
  (d.grab_number).map fun x => (f64_as_u64 x, d)

/-- `deserialize_f32`: `grab_number` then `visit_f32(x as f32)`.  The value
component is the `f64` argument of the cast; the f64-to-f32 rounding itself
is outside the rational model and no claim inspects an f32 value — the
claims about this method concern only its error and state behaviour. -/
def deserialize_f32 (d : Deserializer) : Res (ℚ × Deserializer) :=
  (d.grab_number).map fun x => (x, d)

/-- `deserialize_f64`: `grab_number` then `visit_f64(x)` (no cast). -/
def deserialize_f64 (d : Deserializer) : Res (ℚ × Deserializer) :=
  (d.grab_number).map fun x => (x, d)

/-- `deserialize_option`: `visitor.visit_some(self)` — the same state is
forwarded to the inner type's build step `k`, unconditionally. -/
def deserialize_option {α : Type} (d : Deserializer)
    (k : Deserializer → Res (α × Deserializer)) : Res (α × Deserializer) :=
  k d

/-- `deserialize_char`: `grab_string`, then the string's byte length
(`x.len()`) must be exactly 1, else `ExpectChar(x)`; on success the first
char (`x.chars().next().unwrap()`, a panic on an empty string — unreachable
at byte length 1). -/
def deserialize_char (d : Deserializer) : Res (Char × Deserializer) :=
  (d.grab_string).bind fun x =>
    if utf8Len x ≠ 1 then .err (.expectChar x)
    else
      match x.data with
      | c :: _ => .ok (c, d)
      | [] => .panic

/-- `deserialize_identifier`: reads `self.depth[self.depth.len() - 1]`
directly, with no emptiness check — on an empty stack the Rust code panics
(index out of bounds).  On a `Struct(item)` frame: if `item.children` is
empty OR `item.values` is empty the identifier is `item.key`; otherwise if
the first value is a `String` it is that string; otherwise `ExpectString`.
A `Seq` frame is `ExpectStruct`. -/
def deserialize_identifier (d : Deserializer) : Res (String × Deserializer) :=
  match d.depth with
  | [] => .panic
  | v :: _ =>
      match v with
      | .struct item =>
          if item.children.isEmpty || item.values.isEmpty then
            .ok (item.key, d)
          else
            match item.values.head? with
            | some (.string x) => .ok (x, d)
            | _ => .err .expectString
      | .seq _ => .err .expectStruct

/-- `deserialize_seq`: on a `Struct(item)` frame the visitor receives a
`SeqSeparated` iterator over `item.values` (returned here as the slice);
a `Seq` frame is `ExpectStruct`. -/
def deserialize_seq (d : Deserializer) : Res (List ConfigValue × Deserializer) :=
  (d.current).bind fun t =>
    match t with
    | .struct item => .ok (item.values, d)
    | .seq _ => .err .expectStruct

/-- `deserialize_struct`: with the root flag set, clears it and hands the
visitor a `FieldSeparated` iterator over the top-level `input` slice;
otherwise a `Struct(item)` frame yields `item.children` as the field list
and a `Seq` frame is `ExpectStruct`.  The returned slice is the one the
iterator receives. -/
def deserialize_struct (d : Deserializer) : Res (List ConfigItem × Deserializer) :=
  if d.root then
    .ok (d.input, { d with root := false })
  else
    (d.current).bind fun t =>
      match t with
      | .struct item => .ok (item.children, d)
      | .seq _ => .err .expectStruct

/-- `deserialize_ignored_any`: `visitor.visit_none()`, touching nothing. -/
def deserialize_ignored_any (d : Deserializer) : Res (Unit × Deserializer) :=
  .ok ((), d)

/-- `deserialize_any`: always `DataTypeNotSupported`. -/
def deserialize_any (_d : Deserializer) : Res (Unit × Deserializer) :=
  .err .dataTypeNotSupported

end Deserializer

/-- `FieldSeparated` from `src/de/mod.rs`, minus the `&mut Deserializer` it
shares with the engine: the deserializer state is threaded explicitly
through `next_key_seed`. -/
structure FieldSeparated where
  items : List ConfigItem
  first : Bool

/-- `FieldSeparated::next_key_seed`.  `seed` is the field-name
deserialization (`seed.deserialize(&mut *self.de)`).  Exhausted items:
pop the frame pushed on the first iteration (`pop().unwrap()` — a panic if
the stack is empty) unless no iteration happened, and signal `none`.
Otherwise push a `Struct` frame on the first iteration (or when the stack
is empty), else replace the top frame; advance past the consumed node and
run the seed. -/
def FieldSeparated.next_key_seed {κ : Type} (f : FieldSeparated)
    (d : Deserializer) (seed : Deserializer → Res (κ × Deserializer)) :
    Res (Option κ × FieldSeparated × Deserializer) :=
  match f.items with
  | [] =>
      if !f.first then
        match d.depth with
        | [] => .panic
        | _ :: rest => .ok (none, f, { d with depth := rest })
      else
        .ok (none, f, d)
  | item :: rest =>
      let d' :=
        if f.first || d.depth.isEmpty then
          { d with depth := .struct item :: d.depth }
        else
          { d with depth := .struct item :: d.depth.tail }
      let f' : FieldSeparated := { items := rest, first := false }
      (seed d').map fun kd => (some kd.1, f', kd.2)

/-- `FieldSeparated::next_value_seed`: runs the seed on the shared
deserializer, touching no iterator state. -/
def FieldSeparated.next_value_seed {α : Type} (_f : FieldSeparated)
    (d : Deserializer) (seed : Deserializer → Res (α × Deserializer)) :
    Res (α × Deserializer) :=
  seed d

/-- `SeqSeparated` from `src/de/mod.rs`, the deserializer threaded
explicitly as for `FieldSeparated`. -/
structure SeqSeparated where
  values : List ConfigValue
  first : Bool

/-- `SeqSeparated::next_element_seed`: same push-once / replace-thereafter /
pop-at-end discipline as `FieldSeparated.next_key_seed`, with `Seq` frames
over the scalar values. -/
def SeqSeparated.next_element_seed {α : Type} (s : SeqSeparated)
    (d : Deserializer) (seed : Deserializer → Res (α × Deserializer)) :
    Res (Option α × SeqSeparated × Deserializer) :=
  match s.values with
  | [] =>
      if !s.first then
        match d.depth with
        | [] => .panic
        | _ :: rest => .ok (none, s, { d with depth := rest })
      else
        .ok (none, s, d)
  | v :: rest =>
      let d' :=
        if s.first then
          { d with depth := .seq v :: d.depth }
        else
          { d with depth := .seq v :: d.depth.tail }
      let s' : SeqSeparated := { values := rest, first := false }
      (seed d').map fun ad => (some ad.1, s', ad.2)

/-!
Drivers for the two iterators.  serde's generic build process loops a
`MapAccess` (`while let Some(key) = map.next_key_seed(..)? { .. }`) or a
`SeqAccess`; the loops below mirror the derived code for a concrete target
type.  Lean's termination checker cannot see that `next_key_seed` shrinks
the item slice, so the loops take explicit fuel; every call site passes
`items.length + 1`, which one-item-per-iteration consumption makes exact
(`.panic` on fuel exhaustion is unreachable there).
-/

/-- The `visit_map` loop of a serde-derived struct visitor: repeatedly take
a key with `next_key_seed`, dispatch it to `valueFor` to decode (or ignore)
the field's value into the accumulator, stop when the iterator signals
`none`. -/
def visitMapLoop {κ σ : Type} (keySeed : Deserializer → Res (κ × Deserializer))
    (valueFor : κ → σ → Deserializer → Res (σ × Deserializer)) :
    Nat → FieldSeparated → Deserializer → σ → Res (σ × Deserializer)
  | 0, _, _, _ => .panic
  | fuel + 1, f, d, acc =>
      match f.next_key_seed d keySeed with
      | .err e => .err e
      | .panic => .panic
      | .ok (none, _, d') => .ok (acc, d')
      | .ok (some k, f', d') =>
          match valueFor k acc d' with
          | .err e => .err e
          | .panic => .panic
          | .ok (acc', d'') => visitMapLoop keySeed valueFor fuel f' d'' acc'

/-- The element-decoding seed of a `Vec<ConfigValue>`-like target: each
element is read off the current (`Seq`) frame by single-value resolution,
which hands the scalar back unchanged. -/
def grabSeed (d : Deserializer) : Res (ConfigValue × Deserializer) :=
  (d.grab_val).map fun v => (v, d)

/-- The `visit_seq` loop of a serde-derived sequence visitor, collecting
the decoded scalars in order with `grabSeed` as the element seed. -/
def visitSeqCollect : Nat → SeqSeparated → Deserializer →
    Res (List ConfigValue × Deserializer)
  | 0, _, _ => .panic
  | fuel + 1, s, d =>
      match s.next_element_seed d grabSeed with
      | .err e => .err e
      | .panic => .panic
      | .ok (none, _, d') => .ok ([], d')
      | .ok (some v, s', d') =>
          match visitSeqCollect fuel s' d' with
          | .err e => .err e
          | .panic => .panic
          | .ok (l, d'') => .ok (v :: l, d'')

/-!
Concrete serde-derived decoders for the target shapes the claims use, each
mirroring the code `#[derive(Deserialize)]` generates: a field-identifier
enum with a catch-all ignore variant, `deserialize_struct` to obtain the
field iterator, the `visit_map` loop accumulating optional field slots, a
duplicate-field error on a repeated key, and a missing-field error (or a
`None` default for an `Option` field) at the end.
-/

/-- Target of the graphite scenario: `struct Node { port: i32 }`. -/
structure NodeT where
  port : ℤ
deriving Repr

/-- Target of the graphite scenario: `struct MyStruct { example: Node }`. -/
structure MyStructT where
  «example» : NodeT
deriving Repr

/-- Target of the optional-field scenario:
`struct OptStruct { my_bool: Option<bool> }`. -/
structure OptStructT where
  my_bool : Option Bool
deriving Repr

/-- The derived field enum of `Node`. -/
inductive NodeField where
  | port
  | ignore

/-- The derived `Deserialize` of `Node`'s field enum: an identifier decode
mapped to the known field names, anything else to the ignore variant. -/
def nodeFieldSeed (d : Deserializer) : Res (NodeField × Deserializer) :=
  (d.deserialize_identifier).map fun sd =>
    (if sd.1 = "port" then NodeField.port else NodeField.ignore, sd.2)

/-- The `visit_map` body of `Node`'s derived visitor for one field. -/
def nodeValueFor : NodeField → Option ℤ → Deserializer →
    Res (Option ℤ × Deserializer)
  | .port, acc, d =>
      if acc.isSome then .err (.serdeError "duplicate field `port`")
      else (d.deserialize_i32).map fun nd => (some nd.1, nd.2)
  | .ignore, acc, d =>
      (d.deserialize_ignored_any).map fun ud => (acc, ud.2)

/-- The derived `Deserialize` of `Node`. -/
def decodeNodeT (d : Deserializer) : Res (NodeT × Deserializer) :=
  match d.deserialize_struct with
  | .err e => .err e
  | .panic => .panic
  | .ok (fields, d') =>
      match visitMapLoop nodeFieldSeed nodeValueFor (fields.length + 1)
          { items := fields, first := true } d' none with
      | .err e => .err e
      | .panic => .panic
      | .ok (some p, d'') => .ok (⟨p⟩, d'')
      | .ok (none, _) => .err (.serdeError "missing field `port`")

/-- The derived field enum of `MyStruct`. -/
inductive MyField where
  | «example»
  | ignore

/-- The derived `Deserialize` of `MyStruct`'s field enum. -/
def myFieldSeed (d : Deserializer) : Res (MyField × Deserializer) :=
  (d.deserialize_identifier).map fun sd =>
    (if sd.1 = "example" then MyField.«example» else MyField.ignore, sd.2)

/-- The `visit_map` body of `MyStruct`'s derived visitor for one field. -/
def myValueFor : MyField → Option NodeT → Deserializer →
    Res (Option NodeT × Deserializer)
  | .«example», acc, d =>
      if acc.isSome then .err (.serdeError "duplicate field `example`")
      else (decodeNodeT d).map fun nd => (some nd.1, nd.2)
  | .ignore, acc, d =>
      (d.deserialize_ignored_any).map fun ud => (acc, ud.2)

/-- The derived `Deserialize` of `MyStruct`. -/
def decodeMyStructT (d : Deserializer) : Res (MyStructT × Deserializer) :=
  match d.deserialize_struct with
  | .err e => .err e
  | .panic => .panic
  | .ok (fields, d') =>
      match visitMapLoop myFieldSeed myValueFor (fields.length + 1)
          { items := fields, first := true } d' none with
      | .err e => .err e
      | .panic => .panic
      | .ok (some n, d'') => .ok (⟨n⟩, d'')
      | .ok (none, _) => .err (.serdeError "missing field `example`")

/-- `from_collectd::<MyStruct>`: the public entry point on a fresh engine. -/
def fromCollectdMyStruct (input : List ConfigItem) : Res MyStructT :=
  (decodeMyStructT (Deserializer.from_collectd input)).map Prod.fst

/-- The derived field enum of `OptStruct`. -/
inductive OptField where
  | my_bool
  | ignore

/-- The derived `Deserialize` of `OptStruct`'s field enum. -/
def optFieldSeed (d : Deserializer) : Res (OptField × Deserializer) :=
  (d.deserialize_identifier).map fun sd =>
    (if sd.1 = "my_bool" then OptField.my_bool else OptField.ignore, sd.2)

/-- `Option<bool>`'s `Deserialize`: `deserialize_option` with a visitor
whose `visit_some` decodes the inner `bool`. -/
def decodeOptionBool (d : Deserializer) : Res (Option Bool × Deserializer) :=
  d.deserialize_option fun d' =>
    (d'.deserialize_bool).map fun bd => (some bd.1, bd.2)

/-- The `visit_map` body of `OptStruct`'s derived visitor for one field. -/
def optValueFor : OptField → Option (Option Bool) → Deserializer →
    Res (Option (Option Bool) × Deserializer)
  | .my_bool, acc, d =>
      if acc.isSome then .err (.serdeError "duplicate field `my_bool`")
      else (decodeOptionBool d).map fun bd => (some bd.1, bd.2)
  | .ignore, acc, d =>
      (d.deserialize_ignored_any).map fun ud => (acc, ud.2)

/-- The derived `Deserialize` of `OptStruct`; a field slot never filled
falls back to `None` (serde's missing-field handling for `Option`). -/
def decodeOptStructT (d : Deserializer) : Res (OptStructT × Deserializer) :=
  match d.deserialize_struct with
  | .err e => .err e
  | .panic => .panic
  | .ok (fields, d') =>
      match visitMapLoop optFieldSeed optValueFor (fields.length + 1)
          { items := fields, first := true } d' none with
      | .err e => .err e
      | .panic => .panic
      | .ok (acc, d'') => .ok (⟨acc.getD none⟩, d'')

/-- `from_collectd::<OptStruct>`. -/
def fromCollectdOptStruct (input : List ConfigItem) : Res OptStructT :=
  (decodeOptStructT (Deserializer.from_collectd input)).map Prod.fst

/-!
Concrete fixtures shared by the theorems below.
-/

/-- The named-block node of the `test_serde_graphite` scenario. -/
def graphiteNode : ConfigItem :=
  .mk "node" [.string "example"] [.mk "port" [.number 2003] []]

/-- Top-level input of the graphite scenario. -/
def graphiteItems : List ConfigItem := [graphiteNode]

/-- An engine positioned at a `Struct` frame over `node`, past the root. -/
def structFrameOf (node : ConfigItem) : Deserializer :=
  { input := [], depth := [.struct node], root := false }

/-- A node carrying a single numeric scalar. -/
def numNode (q : ℚ) : ConfigItem := .mk "n" [.number q] []

/-- An engine whose context stack is empty, past the root. -/
def emptyStackDe : Deserializer :=
  { input := [], depth := [], root := false }

/-- The engine state of the 300.0-into-i8 scenario. -/
def de300 : Deserializer := structFrameOf (numNode 300)

/-- The identifier-resolution rule as the specification states it, keyed
on the node having no children AND no values (the code keys on OR): under
the AND rule, a node with some values but no children would fall through
to the first-value check. -/
def identifierAndRule : Prop :=
  ∀ (d : Deserializer) (node : ConfigItem) (rest : List DeType),
    d.depth = .struct node :: rest →
    if node.children.isEmpty && node.values.isEmpty then
      d.deserialize_identifier = .ok (node.key, d)
    else
      match node.values.head? with
      | some (.string s) => d.deserialize_identifier = .ok (s, d)
      | _ => d.deserialize_identifier = .err .expectString

/-!
Theorems.  Each claim of the specification gets one theorem (with, where
the claim fails on the code, a counterexample theorem and an amended
version).
-/

/-- C4: decoding the single top-level node
`{key="node", values=[String "example"], children=[{key="port",
values=[Number 2003.0], children=[]}]}` against `struct MyStruct
{ example: Node }` with `struct Node { port: i32 }` succeeds and yields
`example.port == 2003`; the identifier resolved for the node is
`"example"`, not the node's own key `"node"`. -/
theorem graphite_named_block_decode :
    fromCollectdMyStruct graphiteItems = .ok ⟨⟨2003⟩⟩ ∧
    (structFrameOf graphiteNode).deserialize_identifier =
      .ok ("example", structFrameOf graphiteNode) ∧
    "example" ≠ "node" :=
  ⟨rfl, rfl, by decide⟩

/-- C9: decoding an empty top-level node slice into
`struct OptStruct { my_bool: Option<bool> }` succeeds with the field
absent (`None`); `deserialize_option` always forwards the current state to
the inner type's build step; and the field iterator over an exhausted item
slice signals `none` without ever invoking the key seed (the result is the
same for every seed and the state is untouched). -/
theorem optional_field_absent_on_empty_input :
    fromCollectdOptStruct [] = .ok ⟨none⟩ ∧
    (∀ (α : Type) (k : Deserializer → Res (α × Deserializer))
        (d : Deserializer), d.deserialize_option k = k d) ∧
    (∀ (κ : Type) (seed : Deserializer → Res (κ × Deserializer))
        (d : Deserializer),
      FieldSeparated.next_key_seed ⟨[], true⟩ d seed = .ok (none, ⟨[], true⟩, d)) :=
  ⟨rfl, fun _ _ _ => rfl, fun _ _ _ => rfl⟩

/-- C3, counterexample: decoding the single scalar `Number 300.0` into an
8-bit signed integer yields `127` (Rust's float-to-int `as` cast
saturates), not the two's-complement wrap `44` the claim states. -/
theorem i8_cast_of_300_saturates :
    de300.deserialize_i8 = .ok (127, de300) ∧ (127 : ℤ) ≠ 44 :=
  ⟨rfl, by decide⟩

/-- C3, amended: resolving a single-scalar `Number` into any integer
target width applies a truncating cast that saturates at the bounds of the
target type, succeeding with no range or fractional-part error for every
input value. -/
theorem integer_casts_truncate_and_saturate (d : Deserializer)
    (node : ConfigItem) (rest : List DeType) (q : ℚ)
    (h : d.depth = .struct node :: rest) (hv : node.values = [.number q]) :
    d.deserialize_i8 = .ok (rustTruncSat (-(2 ^ 7)) (2 ^ 7 - 1) q, d) ∧
    d.deserialize_i16 = .ok (rustTruncSat (-(2 ^ 15)) (2 ^ 15 - 1) q, d) ∧
    d.deserialize_i32 = .ok (rustTruncSat (-(2 ^ 31)) (2 ^ 31 - 1) q, d) ∧
    d.deserialize_i64 = .ok (rustTruncSat (-(2 ^ 63)) (2 ^ 63 - 1) q, d) ∧
    d.deserialize_u8 = .ok (rustTruncSat 0 (2 ^ 8 - 1) q, d) ∧
    d.deserialize_u16 = .ok (rustTruncSat 0 (2 ^ 16 - 1) q, d) ∧
    d.deserialize_u32 = .ok (rustTruncSat 0 (2 ^ 32 - 1) q, d) ∧
    d.deserialize_u64 = .ok (rustTruncSat 0 (2 ^ 64 - 1) q, d) := by
  refine ⟨?_, ?_, ?_, ?_, ?_, ?_, ?_, ?_⟩ <;>
    simp [Deserializer.deserialize_i8, Deserializer.deserialize_i16,
      Deserializer.deserialize_i32, Deserializer.deserialize_i64,
      Deserializer.deserialize_u8, Deserializer.deserialize_u16,
      Deserializer.deserialize_u32, Deserializer.deserialize_u64,
      Deserializer.grab_number, Deserializer.grab_val, Deserializer.current,
      h, hv, Res.bind, Res.map, f64_as_i8, f64_as_i16, f64_as_i32,
      f64_as_i64, f64_as_u8, f64_as_u16, f64_as_u32, f64_as_u64]

/-- C3, witness for the amended theorem: the hypotheses hold at the
concrete 300.0-into-i8 state, where the saturating cast yields 127. -/
theorem integer_casts_truncate_and_saturate_witness :
    de300.deserialize_i8 = .ok (rustTruncSat (-(2 ^ 7)) (2 ^ 7 - 1) 300, de300) :=
  (integer_casts_truncate_and_saturate de300 (numNode 300) [] 300 rfl rfl).1

/-- C1, counterexample: the spec's AND rule fails on the code.  A node with
no children but one (boolean) value is resolved to its own key by the code
(`children.is_empty() || values.is_empty()`), while the AND rule demands
the first-value check and hence `ExpectString` here. -/
theorem identifier_and_rule_refuted : ¬ identifierAndRule := by
  intro h
  have h2 := h (structFrameOf (.mk "k" [.boolean true] []))
    (.mk "k" [.boolean true] []) [] rfl
  have h3 : Res.ok ("k", structFrameOf (.mk "k" [.boolean true] []))
      = Res.err DeError.expectString := h2
  exact Res.noConfusion h3

/-- C1, amended: on a `Struct(node)` frame, if the node has no children OR
no values the identifier is the node's own key; otherwise (children and
values both present), if the first value is a string scalar it is that
string, and otherwise the request fails with `ExpectString`. -/
theorem identifier_resolution (d : Deserializer) (node : ConfigItem)
    (rest : List DeType) (h : d.depth = .struct node :: rest) :
    ((node.children.isEmpty || node.values.isEmpty) = true →
      d.deserialize_identifier = .ok (node.key, d)) ∧
    ((node.children.isEmpty || node.values.isEmpty) = false →
      ∀ v vs, node.values = v :: vs →
        (∀ s, v = .string s → d.deserialize_identifier = .ok (s, d)) ∧
        ((∀ s, v ≠ .string s) → d.deserialize_identifier = .err .expectString)) := by
  constructor
  · intro hc
    simp [Deserializer.deserialize_identifier, h, hc]
  · intro hc v vs hv
    have hch : node.children.isEmpty = false := by
      cases hcc : node.children.isEmpty
      · rfl
      · rw [hcc] at hc; simp at hc
    constructor
    · rintro s rfl
      simp [Deserializer.deserialize_identifier, h, hch, hv]
    · intro hns
      cases v with
      | string s => exact absurd rfl (hns s)
      | number n => simp [Deserializer.deserialize_identifier, h, hch, hv]
      | boolean b => simp [Deserializer.deserialize_identifier, h, hch, hv]

/-- C1, witness for the amended theorem: a childless single-number node is
resolved to its own key. -/
theorem identifier_resolution_witness :
    (structFrameOf (numNode 0)).deserialize_identifier =
      .ok ("n", structFrameOf (numNode 0)) :=
  (identifier_resolution (structFrameOf (numNode 0)) (numNode 0) [] rfl).1 rfl

/-- C2, counterexample: on an empty context stack `deserialize_identifier`
indexes `depth[len - 1]` with no emptiness check, so the Rust code panics
instead of failing with `NoMoreValuesLeft` as the claim states. -/
theorem identifier_empty_stack_panics :
    emptyStackDe.deserialize_identifier = .panic ∧
    emptyStackDe.deserialize_identifier ≠ .err .noMoreValuesLeft :=
  ⟨rfl, fun h => Res.noConfusion h⟩

/-- C2, amended: with an empty context stack every decode operation that
goes through `current` (boolean, every numeric width, string, char,
sequence, and struct once the root flag is cleared) fails with
`NoMoreValuesLeft`; `deserialize_identifier` alone skips the check and
panics on the out-of-bounds index. -/
theorem empty_stack_behaviour (d : Deserializer) (h : d.depth = []) :
    d.deserialize_bool = .err .noMoreValuesLeft ∧
    d.deserialize_string = .err .noMoreValuesLeft ∧
    d.deserialize_str = .err .noMoreValuesLeft ∧
    d.deserialize_i8 = .err .noMoreValuesLeft ∧
    d.deserialize_i16 = .err .noMoreValuesLeft ∧
    d.deserialize_i32 = .err .noMoreValuesLeft ∧
    d.deserialize_i64 = .err .noMoreValuesLeft ∧
    d.deserialize_u8 = .err .noMoreValuesLeft ∧
    d.deserialize_u16 = .err .noMoreValuesLeft ∧
    d.deserialize_u32 = .err .noMoreValuesLeft ∧
    d.deserialize_u64 = .err .noMoreValuesLeft ∧
    d.deserialize_f32 = .err .noMoreValuesLeft ∧
    d.deserialize_f64 = .err .noMoreValuesLeft ∧
    d.deserialize_char = .err .noMoreValuesLeft ∧
    d.deserialize_seq = .err .noMoreValuesLeft ∧
    (d.root = false → d.deserialize_struct = .err .noMoreValuesLeft) ∧
    d.deserialize_identifier = .panic := by
  have hc : d.current = .err .noMoreValuesLeft := by
    simp [Deserializer.current, h]
  have hg : d.grab_val = .err .noMoreValuesLeft := by
    simp [Deserializer.grab_val, hc, Res.bind]
  have hs : d.grab_string = .err .noMoreValuesLeft := by
    simp [Deserializer.grab_string, hg, Res.bind]
  have hb : d.grab_bool = .err .noMoreValuesLeft := by
    simp [Deserializer.grab_bool, hg, Res.bind]
  have hn : d.grab_number = .err .noMoreValuesLeft := by
    simp [Deserializer.grab_number, hg, Res.bind]
  refine ⟨?_, ?_, ?_, ?_, ?_, ?_, ?_, ?_, ?_, ?_, ?_, ?_, ?_, ?_, ?_,
    fun hr => ?_, ?_⟩
  · simp [Deserializer.deserialize_bool, hb, Res.map]
  · simp [Deserializer.deserialize_string, hs, Res.map]
  · simp [Deserializer.deserialize_str, hs, Res.map]
  · simp [Deserializer.deserialize_i8, hn, Res.map]
  · simp [Deserializer.deserialize_i16, hn, Res.map]
  · simp [Deserializer.deserialize_i32, hn, Res.map]
  · simp [Deserializer.deserialize_i64, hn, Res.map]
  · simp [Deserializer.deserialize_u8, hn, Res.map]
  · simp [Deserializer.deserialize_u16, hn, Res.map]
  · simp [Deserializer.deserialize_u32, hn, Res.map]
  · simp [Deserializer.deserialize_u64, hn, Res.map]
  · simp [Deserializer.deserialize_f32, hn, Res.map]
  · simp [Deserializer.deserialize_f64, hn, Res.map]
  · simp [Deserializer.deserialize_char, hs, Res.bind]
  · simp [Deserializer.deserialize_seq, hc, Res.bind]
  · simp [Deserializer.deserialize_struct, hr, hc, Res.bind]
  · simp [Deserializer.deserialize_identifier, h]

/-- C2, witness for the amended theorem at a concrete empty-stack,
root-cleared engine. -/
theorem empty_stack_behaviour_witness :
    emptyStackDe.deserialize_bool = .err .noMoreValuesLeft :=
  (empty_stack_behaviour emptyStackDe rfl).1

/-- C6, counterexample: `deserialize_char` compares the UTF-8 *byte*
length of the string with 1, so the one-character string `"é"` (two bytes)
fails with `ExpectChar` although the claim requires the character to be
returned. -/
theorem char_single_char_multibyte_fails :
    (structFrameOf (.mk "c" [.string "é"] [])).deserialize_char =
      .err (.expectChar "é") ∧
    ("é" : String).length = 1 :=
  ⟨rfl, rfl⟩

/-- C6, amended: `deserialize_char` delegates the string resolution to
`grab_string`; a resolved string whose UTF-8 byte length is not 1 fails
with `ExpectChar` carrying the string itself, and a one-byte string (hence
a single ASCII character) yields its first (only) character. -/
theorem deserialize_char_byte_length (d : Deserializer) (s : String)
    (h : d.grab_string = .ok s) :
    (utf8Len s ≠ 1 → d.deserialize_char = .err (.expectChar s)) ∧
    (utf8Len s = 1 → ∃ c cs, s.data = c :: cs ∧ d.deserialize_char = .ok (c, d)) := by
  constructor
  · intro hne
    simp [Deserializer.deserialize_char, h, Res.bind, hne]
  · intro he
    cases hd : s.data with
    | nil =>
        exfalso
        have h0 : utf8Len s = 0 := by simp [utf8Len, hd]
        omega
    | cons c cs =>
        exact ⟨c, cs, rfl, by
          simp [Deserializer.deserialize_char, h, Res.bind, he, hd]⟩

/-- C6, witness for the amended theorem: the two-byte string `"ab"` fails
with `ExpectChar "ab"`. -/
theorem deserialize_char_byte_length_witness :
    (structFrameOf (.mk "c" [.string "ab"] [])).deserialize_char =
      .err (.expectChar "ab") :=
  (deserialize_char_byte_length (structFrameOf (.mk "c" [.string "ab"] []))
    "ab" rfl).1 (by decide)

/-- C7: with the root flag set, `deserialize_struct` consumes the
top-level node slice as the field list and clears the flag; with the flag
cleared it uses the children of the current `Struct` frame's node, and
fails with `ExpectStruct` on a `Sequence` frame. -/
theorem deserialize_struct_dispatch (d : Deserializer) :
    (d.root = true → d.deserialize_struct = .ok (d.input, { d with root := false })) ∧
    (d.root = false → ∀ node rest, d.depth = .struct node :: rest →
      d.deserialize_struct = .ok (node.children, d)) ∧
    (d.root = false → ∀ v rest, d.depth = .seq v :: rest →
      d.deserialize_struct = .err .expectStruct) := by
  refine ⟨fun hr => ?_, fun hr node rest hd => ?_, fun hr v rest hd => ?_⟩
  · simp [Deserializer.deserialize_struct, hr]
  · simp [Deserializer.deserialize_struct, Deserializer.current, hr, hd, Res.bind]
  · simp [Deserializer.deserialize_struct, Deserializer.current, hr, hd, Res.bind]

/-- C7, witness: the very first struct request on the graphite input
consumes the top-level slice and clears the root flag. -/
theorem deserialize_struct_dispatch_witness :
    (Deserializer.from_collectd graphiteItems).deserialize_struct =
      .ok (graphiteItems,
        { Deserializer.from_collectd graphiteItems with root := false }) :=
  (deserialize_struct_dispatch (Deserializer.from_collectd graphiteItems)).1 rfl

/-- C5: scalar decodes resolve through `grab_val`: on a `Struct(node)`
frame the request fails with `ExpectSingleValue` exactly when the node
does not carry exactly one value, and otherwise resolves to that single
value; on a `Sequence` frame the scalar is used directly. -/
theorem scalar_single_value_resolution (d : Deserializer) :
    (∀ node rest, d.depth = .struct node :: rest →
      (node.values.length ≠ 1 →
        d.deserialize_bool = .err .expectSingleValue ∧
        d.deserialize_f64 = .err .expectSingleValue ∧
        d.deserialize_string = .err .expectSingleValue) ∧
      (∀ v, node.values = [v] →
        d.grab_val = .ok v ∧
        d.deserialize_bool ≠ .err .expectSingleValue ∧
        d.deserialize_f64 ≠ .err .expectSingleValue ∧
        d.deserialize_string ≠ .err .expectSingleValue)) ∧
    (∀ v rest, d.depth = .seq v :: rest → d.grab_val = .ok v) := by
  refine ⟨fun node rest h => ⟨fun hlen => ?_, fun v hv => ?_⟩,
    fun v rest h => ?_⟩
  · have hg : d.grab_val = .err .expectSingleValue := by
      simp only [Deserializer.grab_val, Deserializer.current, h, Res.bind]
      rcases hv : node.values with _ | ⟨v, _ | ⟨w, vs⟩⟩
      · rfl
      · simp [hv] at hlen
      · rfl
    refine ⟨?_, ?_, ?_⟩
    · simp [Deserializer.deserialize_bool, Deserializer.grab_bool, hg,
        Res.bind, Res.map]
    · simp [Deserializer.deserialize_f64, Deserializer.grab_number, hg,
        Res.bind, Res.map]
    · simp [Deserializer.deserialize_string, Deserializer.grab_string, hg,
        Res.bind, Res.map]
  · have hg : d.grab_val = .ok v := by
      simp [Deserializer.grab_val, Deserializer.current, h, hv, Res.bind]
    refine ⟨hg, ?_, ?_, ?_⟩ <;> cases v <;>
      simp [Deserializer.deserialize_bool, Deserializer.deserialize_f64,
        Deserializer.deserialize_string, Deserializer.grab_bool,
        Deserializer.grab_number, Deserializer.grab_string, hg,
        Res.bind, Res.map]
  · simp [Deserializer.grab_val, Deserializer.current, h, Res.bind]

/-- C5, witness: a node with two scalar values fails a non-sequence decode
with `ExpectSingleValue`. -/
theorem scalar_single_value_resolution_witness :
    (structFrameOf (.mk "k" [.boolean true, .boolean false] [])).deserialize_bool
      = .err .expectSingleValue :=
  (((scalar_single_value_resolution
    (structFrameOf (.mk "k" [.boolean true, .boolean false] []))).1
    (.mk "k" [.boolean true, .boolean false] []) [] rfl).1 (by decide)).1

/-- One step of the element iterator past the first iteration: the top
frame is replaced in place; the element is the scalar of the new frame,
read back unchanged by single-value resolution; at exhaustion the frame is
popped. -/
theorem visitSeqCollect_replaceLoop (l : List ConfigValue) :
    ∀ (x : ConfigValue) (D : List DeType) (d : Deserializer),
      d.depth = .seq x :: D →
      visitSeqCollect (l.length + 1) ⟨l, false⟩ d = .ok (l, { d with depth := D }) := by
  induction l with
  | nil =>
      intro x D d h
      simp [visitSeqCollect, SeqSeparated.next_element_seed, h]
  | cons v l ih =>
      intro x D d h
      have hstep : SeqSeparated.next_element_seed ⟨v :: l, false⟩ d grabSeed
          = .ok (some v, ⟨l, false⟩, { d with depth := .seq v :: D }) := by
        simp [SeqSeparated.next_element_seed, grabSeed, Deserializer.grab_val,
          Deserializer.current, Res.bind, Res.map, h]
      have key : visitSeqCollect ((v :: l).length + 1) ⟨v :: l, false⟩ d
          = match SeqSeparated.next_element_seed ⟨v :: l, false⟩ d grabSeed with
            | .err e => .err e
            | .panic => .panic
            | .ok (none, _, d') => .ok ([], d')
            | .ok (some w, s', d') =>
                match visitSeqCollect (l.length + 1) s' d' with
                | .err e => .err e
                | .panic => .panic
                | .ok (l', d'') => .ok (w :: l', d'') := rfl
      have ih' := ih v D { d with depth := .seq v :: D } rfl
      rw [key, hstep]
      simp only [ih']

/-- The element iterator, driven from its first iteration over the values
list `l`, yields exactly the elements of `l` in order and leaves the
engine state as it found it (push on the first iteration, pop at the
end). -/
theorem visitSeqCollect_full (l : List ConfigValue) (d : Deserializer) :
    visitSeqCollect (l.length + 1) ⟨l, true⟩ d = .ok (l, d) := by
  cases l with
  | nil => rfl
  | cons v l =>
      have hstep : SeqSeparated.next_element_seed ⟨v :: l, true⟩ d grabSeed
          = .ok (some v, ⟨l, false⟩, { d with depth := .seq v :: d.depth }) := by
        simp [SeqSeparated.next_element_seed, grabSeed, Deserializer.grab_val,
          Deserializer.current, Res.bind, Res.map]
      have key : visitSeqCollect ((v :: l).length + 1) ⟨v :: l, true⟩ d
          = match SeqSeparated.next_element_seed ⟨v :: l, true⟩ d grabSeed with
            | .err e => .err e
            | .panic => .panic
            | .ok (none, _, d') => .ok ([], d')
            | .ok (some w, s', d') =>
                match visitSeqCollect (l.length + 1) s' d' with
                | .err e => .err e
                | .panic => .panic
                | .ok (l', d'') => .ok (w :: l', d'') := rfl
      have ih' := visitSeqCollect_replaceLoop l v d.depth
        { d with depth := .seq v :: d.depth } rfl
      rw [key, hstep]
      simp only [ih']

/-- C8: on a `Struct(node)` frame, decode-as-sequence hands the visitor
the node's `values` list, and the element iterator yields exactly those
scalars in order; on a `Sequence` frame the request fails with
`ExpectStruct`. -/
theorem deserialize_seq_elements (d : Deserializer) :
    (∀ node rest, d.depth = .struct node :: rest →
      d.deserialize_seq = .ok (node.values, d) ∧
      visitSeqCollect (node.values.length + 1) ⟨node.values, true⟩ d
        = .ok (node.values, d)) ∧
    (∀ v rest, d.depth = .seq v :: rest →
      d.deserialize_seq = .err .expectStruct) := by
  refine ⟨fun node rest h => ⟨?_, visitSeqCollect_full _ _⟩, fun v rest h => ?_⟩
  · simp [Deserializer.deserialize_seq, Deserializer.current, h, Res.bind]
  · simp [Deserializer.deserialize_seq, Deserializer.current, h, Res.bind]

/-- C8, witness: a node with two scalar values decodes as a sequence into
exactly those two elements, in order. -/
theorem deserialize_seq_elements_witness :
    (structFrameOf (.mk "k" [.boolean true, .boolean false] [])).deserialize_seq
      = .ok ([.boolean true, .boolean false],
          structFrameOf (.mk "k" [.boolean true, .boolean false] [])) :=
  (((deserialize_seq_elements
    (structFrameOf (.mk "k" [.boolean true, .boolean false] []))).1
    (.mk "k" [.boolean true, .boolean false] []) [] rfl)).1

/-- A result of the `grab-then-pair-with-the-input-state` shape can only
succeed with the input state. -/
theorem map_pair_ok {α β : Type} (r : Res α) (g : α → β) (d₀ : Deserializer) :
    ∀ x d', (r.map fun a => (g a, d₀)) = .ok (x, d') → d' = d₀ := by
  intro x d' h
  cases r with
  | ok a => simp [Res.map] at h; exact h.2.symm
  | err e => simp [Res.map] at h
  | panic => simp [Res.map] at h

/-- C10: every successful scalar decode (boolean, every numeric width,
string, char, identifier) returns the engine state exactly as it found
it — the context stack, its length and the root flag are unchanged. -/
theorem scalar_decodes_preserve_state (d : Deserializer) :
    (∀ x d', d.deserialize_bool = .ok (x, d') → d' = d) ∧
    (∀ x d', d.deserialize_string = .ok (x, d') → d' = d) ∧
    (∀ x d', d.deserialize_str = .ok (x, d') → d' = d) ∧
    (∀ x d', d.deserialize_i8 = .ok (x, d') → d' = d) ∧
    (∀ x d', d.deserialize_i16 = .ok (x, d') → d' = d) ∧
    (∀ x d', d.deserialize_i32 = .ok (x, d') → d' = d) ∧
    (∀ x d', d.deserialize_i64 = .ok (x, d') → d' = d) ∧
    (∀ x d', d.deserialize_u8 = .ok (x, d') → d' = d) ∧
    (∀ x d', d.deserialize_u16 = .ok (x, d') → d' = d) ∧
    (∀ x d', d.deserialize_u32 = .ok (x, d') → d' = d) ∧
    (∀ x d', d.deserialize_u64 = .ok (x, d') → d' = d) ∧
    (∀ x d', d.deserialize_f32 = .ok (x, d') → d' = d) ∧
    (∀ x d', d.deserialize_f64 = .ok (x, d') → d' = d) ∧
    (∀ x d', d.deserialize_char = .ok (x, d') → d' = d) ∧
    (∀ x d', d.deserialize_identifier = .ok (x, d') → d' = d) := by
  refine ⟨map_pair_ok _ (fun b => b) d, map_pair_ok _ (fun s => s) d,
    map_pair_ok _ (fun s => s) d, map_pair_ok _ f64_as_i8 d,
    map_pair_ok _ f64_as_i16 d, map_pair_ok _ f64_as_i32 d,
    map_pair_ok _ f64_as_i64 d, map_pair_ok _ f64_as_u8 d,
    map_pair_ok _ f64_as_u16 d, map_pair_ok _ f64_as_u32 d,
    map_pair_ok _ f64_as_u64 d, map_pair_ok _ (fun q => q) d,
    map_pair_ok _ (fun q => q) d, ?_, ?_⟩
  · intro x d' h
    unfold Deserializer.deserialize_char at h
    cases hgs : d.grab_string with
    | ok s =>
        rw [hgs] at h
        simp only [Res.bind] at h
        by_cases hl : utf8Len s ≠ 1
        · rw [if_pos hl] at h; exact absurd h (by simp)
        · rw [if_neg hl] at h
          cases hsd : s.data with
          | nil => rw [hsd] at h; exact absurd h (by simp)
          | cons c cs => rw [hsd] at h; simp at h; exact h.2.symm
    | err e => rw [hgs] at h; simp [Res.bind] at h
    | panic => rw [hgs] at h; simp [Res.bind] at h
  · intro x d' h
    unfold Deserializer.deserialize_identifier at h
    cases hd : d.depth with
    | nil => rw [hd] at h; exact absurd h (by simp)
    | cons t rest =>
        rw [hd] at h
        cases t with
        | seq v => simp at h
        | struct item =>
            simp only [] at h
            split at h
            · simp at h; exact h.2.symm
            · split at h
              · simp at h; exact h.2.symm
              · simp at h

/-- C10, witness: a concrete successful boolean decode returns the state
it was given. -/
theorem scalar_decodes_preserve_state_witness :
    (structFrameOf (.mk "k" [.boolean true] [])).deserialize_bool
      = .ok (true, structFrameOf (.mk "k" [.boolean true] [])) ∧
    structFrameOf (.mk "k" [.boolean true] [])
      = structFrameOf (.mk "k" [.boolean true] []) :=
  ⟨rfl, (scalar_decodes_preserve_state
    (structFrameOf (.mk "k" [.boolean true] []))).1 true
    (structFrameOf (.mk "k" [.boolean true] [])) rfl⟩
